import Mathlib

/-!
Verification of the EcoLibrary book-catalog enrichment resolver.

This file is a shallow embedding of `books/models.py` (class `Book`:
`get_cover_url`, `fetch_book_data_from_openlibrary`, `save`) and of the
favorite-toggling operation of `books/views.py` over the `Favorite` model.

Modelling conventions:
  * Python string truthiness is modelled by `≠ ""`; the nullable text
    columns (`external_id`, `cover_url`) collapse `None` and `""` into
    `""`, which is faithful because the code only ever tests their
    truthiness before using them.
  * `publication_year` is `Option Nat`; Python `not self.publication_year`
    holds for `none` and `some 0`.
  * Every HTTP request is a field of a `Network` oracle mapping the request
    URL (and, for editions listings, the `limit` parameter) to an optional
    decoded payload; `none` stands for a transport error, a non-success
    status, or malformed JSON - the code treats all of those as "this
    sub-fetch yielded nothing".
  * JSON description/notes values may be a plain string or a `{value: ...}`
    object; `JVal` carries the object's `value` key (if any) and whether
    the object is truthy (non-empty) so Python truthiness tests translate
    exactly.  A JSON `null` behaves like `JVal.obj none false` at every
    use site of the code.
  * Digits are ASCII, as in the identifiers and dates the code consumes.
  * The recursive call of the resolver is indexed by fuel; exhausted fuel
    models Python's recursion limit, whose `RecursionError` is caught by
    the outermost handler and converted to a `False` return.
  * The auto-managed audit timestamps (`created_at`, `updated_at`) are not
    modelled; no operation under study reads them.
-/

/-- A catalog record, mirroring the persistent fields of `Book`. -/
structure Book where
  title : String
  author : String
  description : String
  category : String
  publication_year : Option Nat
  external_id : String
  cover_url : String
deriving DecidableEq, Repr

/-- A JSON value that the code shape-sniffs with `isinstance`:
either a string, or an object carrying an optional `"value"` key together
with its Python truthiness (`false` exactly for the empty object; a JSON
`null` is outcome-equivalent to `obj none false` at every use site). -/
inductive JVal where
  | s (v : String)
  | obj (value : Option String) (truthy : Bool)
deriving DecidableEq, Repr

/-- One entry of a per-work editions listing (`/works/{id}/editions.json`). -/
structure EditionEntry where
  description : Option JVal
  notes : Option JVal
  publish_date : Option String
  covers : List Int
deriving DecidableEq, Repr

/-- Decoded payload of a work lookup.  `authors` entries are the `"key"`
strings of well-formed `{author: {key: ...}}` references; a `none` entry is
a malformed reference (skipped by the code). -/
structure WorkData where
  title : Option String
  authors : List (Option String)
  description : Option JVal
  subjects : List String
  subject_places : List String
  covers : List Int
  key : String
deriving DecidableEq, Repr

/-- Decoded payload of an edition lookup (`/books/OL{digits}M.json`).
`works` holds the `"key"` strings of the linked work references. -/
structure EditionData where
  title : Option String
  works : List String
  description : Option JVal
  subjects : List String
  publish_date : Option String
  covers : List Int
deriving DecidableEq, Repr

/-- One document of a `search.json` response. -/
structure SearchDoc where
  key : String
  author_name : List String
  first_publish_year : Option Nat
  subject : List String
  cover_i : Option Int
deriving DecidableEq, Repr

/-- The external HTTP world, one oracle per endpoint shape.  A `none`
result is a failed sub-fetch (exception, bad status, or bad JSON). -/
structure Network where
  editionJson : String → Option EditionData
  workJson : String → Option WorkData
  authorJson : String → Option String
  editionsJson : String → Nat → Option (List EditionEntry)
  searchTitle : String → Option (List SearchDoc)
  searchTitleAuthor : String → String → Option (List SearchDoc)

/-! ### Kernel-computable string helpers

Core `String.replace`/`toUpper` and friends are re-implemented on the
underlying character lists with structural recursion so that closed
evaluations reduce inside the kernel. -/

/-- `'c' in s.upper()` for an ASCII letter `c`. -/
def upperContains (s : String) (c : Char) : Bool :=
  s.data.any (fun ch => ch.toUpper = c)

/-- Remove every non-overlapping occurrence of `"OL"`, left to right:
Python `s.replace("OL", "")`. -/
def removeOL : List Char → List Char
  | [] => []
  | [c] => [c]
  | c :: c2 :: rest2 =>
    if c = 'O' ∧ c2 = 'L' then removeOL rest2
    else c :: removeOL (c2 :: rest2)

/-- Python `s.replace(ch, "")` for a single-character pattern. -/
def removeChar (ch : Char) (s : String) : String :=
  ⟨s.data.filter (fun c => c ≠ ch)⟩

/-- Python `s.replace("OL", "")` packaged on `String`. -/
def stripOL (s : String) : String := ⟨removeOL s.data⟩

/-- Python `s.split('/')[-1]`: the text after the last `'/'`. -/
def lastToken (s : String) : String :=
  ⟨s.data.foldl (fun acc c => if c = '/' then [] else acc ++ [c]) []⟩

/-- Python `s.startswith(p)`. -/
def pyStartsWith (s p : String) : Bool := p.data.isPrefixOf s.data

/-- Python `s.endswith(p)`. -/
def pyEndsWith (s p : String) : Bool := p.data.isSuffixOf s.data

/-- First run of four ASCII digits in the character list:
`re.search(r"\d\d\d\d", s)`, scanning left to right. -/
def firstYearAux : List Char → Option Nat
  | c :: c2 :: c3 :: c4 :: rest =>
    if c.isDigit ∧ c2.isDigit ∧ c3.isDigit ∧ c4.isDigit then
      some ((c.toNat - 48) * 1000 + (c2.toNat - 48) * 100 +
            (c3.toNat - 48) * 10 + (c4.toNat - 48))
    else firstYearAux (c2 :: c3 :: c4 :: rest)
  | _ => none

/-- The first 4-digit year found in a date string, if any. -/
def extractYear (s : String) : Option Nat := firstYearAux s.data

/-- Decimal digit as a character. -/
def digitChar : Nat → Char
  | 0 => '0' | 1 => '1' | 2 => '2' | 3 => '3' | 4 => '4'
  | 5 => '5' | 6 => '6' | 7 => '7' | 8 => '8' | _ => '9'

/-- Decimal digits of `n`, most significant first (fuel-indexed so the
recursion is structural; `fuel = n + 1` always suffices). -/
def natDigitsAux : Nat → Nat → List Char
  | 0, _ => []
  | fuel + 1, n =>
    if n < 10 then [digitChar n]
    else natDigitsAux fuel (n / 10) ++ [digitChar (n % 10)]

/-- Decimal rendering of a natural number. -/
def natToStr (n : Nat) : String := ⟨natDigitsAux (n + 1) n⟩

/-- Decimal rendering of an integer (Python f-string interpolation). -/
def intToStr (i : Int) : String :=
  if i < 0 then "-" ++ natToStr i.natAbs else natToStr i.natAbs

/-- Python `", ".join(l)`. -/
def joinComma : List String → String
  | [] => ""
  | [a] => a
  | a :: rest => a ++ ", " ++ joinComma rest

/-! ### URLs and derived identifiers, as built by the code -/

/-- Cover-id to image URL: `https://covers.openlibrary.org/b/id/{id}-L.jpg`. -/
def coverUrlOf (c : Int) : String :=
  "https://covers.openlibrary.org/b/id/" ++ intToStr c ++ "-L.jpg"

/-- Edition lookup URL for an external id:
`OL{clean}M` with `clean = id.replace("OL","").replace("M","")`. -/
def editionUrl (id : String) : String :=
  "https://openlibrary.org/books/OL" ++ removeChar 'M' (stripOL id) ++ "M.json"

/-- Formatted direct-work lookup URL:
`/works/OL{clean}W.json` with `clean = id.replace("OL","").replace("W","")`. -/
def fmtWorkUrl (id : String) : String :=
  "https://openlibrary.org/works/OL" ++ removeChar 'W' (stripOL id) ++ "W.json"

/-- Raw-identifier direct-work lookup URL: `/works/{id}.json`. -/
def rawWorkUrl (id : String) : String :=
  "https://openlibrary.org/works/" ++ id ++ ".json"

/-- Normalised work id for the editions listings of the year and cover
blocks: last path segment of the work's key, prefixed with `OL` and
suffixed with `W` when missing. -/
def fixWorkId (s : String) : String :=
  let s1 := if pyStartsWith s "OL" then s else "OL" ++ s
  if pyEndsWith s1 "W" then s1 else s1 ++ "W"

/-- Editions listing URL used by the year and cover blocks (normalised id). -/
def editionsUrlFixed (wd : WorkData) : String :=
  "https://openlibrary.org/works/" ++ fixWorkId (lastToken wd.key) ++ "/editions.json"

/-- Editions listing URL used by the description fallback (raw last segment,
no `OL`/`W` normalisation). -/
def editionsUrlRaw (wd : WorkData) : String :=
  "https://openlibrary.org/works/" ++ lastToken wd.key ++ "/editions.json"

/-! ### Field merge rules (`fetch_book_data_from_openlibrary`, lines 162-370)

Each block below translates one field-updating block of the Python merge,
in source order; the merged record threads through them left to right. -/

/-- Title block: fill an empty/sentinel title with work title, else edition
title, else the sentinel (Python `or`-chain on truthiness). -/
def mergeTitle (wd : WorkData) (ed : Option EditionData) (b : Book) : Book :=
  if b.title = "" ∨ b.title = "Sin título" then
    let fromEdition : Option String := ed.bind (fun e => e.title)
    let pick : String :=
      match wd.title with
      | some t => if t = "" then
          (match fromEdition with
           | some t2 => if t2 = "" then "Sin título" else t2
           | none => "Sin título")
        else t
      | none =>
        match fromEdition with
        | some t2 => if t2 = "" then "Sin título" else t2
        | none => "Sin título"
    { b with title := pick }
  else b

/-- Author keys of the well-formed, non-empty author references. -/
def authorKeys (wd : WorkData) : List String :=
  wd.authors.filterMap (fun r =>
    match r with
    | some k => if k = "" then none else some k
    | none => none)

/-- Resolve up to the given author keys to display names; a failed fetch or
an empty/absent name is skipped (`continue` / `if name:`). -/
def fetchAuthorNames (net : Network) (keys : List String) : List String :=
  keys.filterMap (fun k =>
    match net.authorJson ("https://openlibrary.org" ++ k ++ ".json") with
    | some name => if name = "" then none else some name
    | none => none)

/-- Author block: when the work lists authors, fetch the first three
resolvable names and, if any were fetched and the author field is
empty/sentinel, join them with `", "`. -/
def mergeAuthor (net : Network) (wd : WorkData) (b : Book) : Book :=
  if wd.authors ≠ [] then
    let names := fetchAuthorNames net ((authorKeys wd).take 3)
    if names ≠ [] ∧ (b.author = "" ∨ b.author = "Autor desconocido") then
      { b with author := joinComma names }
    else b
  else b

/-- Description block 1: from the work's description, accepting a plain
string or the `value` of a truthy object, non-empty values only. -/
def mergeDescWork (wd : WorkData) (b : Book) : Book :=
  if b.description = "" ∨ b.description = "Sin descripción disponible" then
    match wd.description with
    | some (JVal.s v) => if v = "" then b else { b with description := v }
    | some (JVal.obj v _) =>
      match v with
      | some dv => if dv = "" then b else { b with description := dv }
      | none => b
    | none => b
  else b

/-- Assignment `self.description = d.get("value", self.description)` /
`self.description = d` applied to a truthy description-like value. -/
def assignDescLike (j : JVal) (b : Book) : Book :=
  match j with
  | JVal.s v => if v = "" then b else { b with description := v }
  | JVal.obj v t =>
    if t then (match v with
               | some dv => { b with description := dv }
               | none => b)
    else b

/-- The `elif "notes" in first_edition` branch (lines 233-238): a `notes`
object assigns its `value` (or keeps the field), a `notes` string assigns
even when empty (no truthiness test there). -/
def descNotes (first : EditionEntry) (b : Book) : Book :=
  match first.notes with
  | some (JVal.obj v _) =>
    (match v with
     | some dv => { b with description := dv }
     | none => b)
  | some (JVal.s v) => { b with description := v }
  | none => b

/-- Description block 2: if still empty/sentinel, take the fetched
edition's description; with no fetched edition, consult the first entry of
a limit-1 editions listing (description, else the `notes` branch). -/
def mergeDescFallback (net : Network) (wd : WorkData) (ed : Option EditionData)
    (b : Book) : Book :=
  if b.description = "" ∨ b.description = "Sin descripción disponible" then
    match ed with
    | some e =>
      (match e.description with
       | some j => assignDescLike j b
       | none => b)
    | none =>
      match net.editionsJson (editionsUrlRaw wd) 1 with
      | some entries =>
        (match entries.head? with
         | some first =>
           (match first.description with
            | some j =>
              (match j with
               | JVal.s v => if v = "" then descNotes first b else { b with description := v }
               | JVal.obj v t =>
                 if t then (match v with
                            | some dv => { b with description := dv }
                            | none => b)
                 else descNotes first b)
            | none => descNotes first b)
         | none => b)
      | none => b
  else b

/-- Category block: work subjects (≤ 2 joined), else edition subjects,
else work subject_places. -/
def mergeCategory (wd : WorkData) (ed : Option EditionData) (b : Book) : Book :=
  if b.category = "" ∨ b.category = "General" then
    let subjects :=
      if wd.subjects = [] then
        (match ed with
         | some e => e.subjects
         | none => [])
      else wd.subjects
    if subjects ≠ [] then { b with category := joinComma (subjects.take 2) }
    else if wd.subject_places ≠ [] then
      { b with category := joinComma (wd.subject_places.take 2) }
    else b
  else b

/-- Python `not self.publication_year`: `None` or `0`. -/
def yearFalsy : Option Nat → Bool
  | none => true
  | some n => n = 0

/-- Guard of the year block: empty year or the sentinel `2000`. -/
def yearGuard (b : Book) : Bool :=
  yearFalsy b.publication_year || b.publication_year == some 2000

/-- Loop body of the oldest-year scan (lines 290-297): a falsy or
matchless `publish_date` keeps the accumulator, an extracted year lowers
it. -/
def oldestStep (acc : Option Nat) (e : EditionEntry) : Option Nat :=
  match e.publish_date with
  | some pd =>
    if pd = "" then acc
    else
      (match extractYear pd with
       | some y =>
         (match acc with
          | none => some y
          | some o => if y < o then some y else some o)
       | none => acc)
  | none => acc

/-- Oldest extractable 4-digit year across the listed editions
(`None`-or-empty dates and matchless dates are skipped). -/
def oldestYear (entries : List EditionEntry) : Option Nat :=
  entries.foldl oldestStep none

/-- Year block: from the fetched edition's `publish_date` first; if the
year is still falsy or the sentinel `2000`, fall back to the oldest year
of a limit-50 editions listing (applied only when truthy). -/
def mergeYear (net : Network) (wd : WorkData) (ed : Option EditionData)
    (b : Book) : Book :=
  if yearGuard b then
    let b1 :=
      match ed with
      | some e =>
        (match e.publish_date with
         | some pd =>
           if pd = "" then b
           else
             (match extractYear pd with
              | some y => { b with publication_year := some y }
              | none => b)
         | none => b)
      | none => b
    if yearGuard b1 then
      match net.editionsJson (editionsUrlFixed wd) 50 with
      | some entries =>
        (match oldestYear entries with
         | some y => if y = 0 then b1 else { b1 with publication_year := some y }
         | none => b1)
      | none => b1
    else b1
  else b

/-- First truthy positive cover id of a covers list
(`[c for c in covers if c and c > 0][0]`). -/
def firstValidCover (covers : List Int) : Option Int :=
  (covers.filter (fun c => 0 < c)).head?

/-- Candidate `(year-or-0, first valid cover id)` pairs of the listed
editions that carry a valid cover. -/
def coverCandidates (entries : List EditionEntry) : List (Nat × Int) :=
  entries.filterMap (fun e =>
    match firstValidCover e.covers with
    | some c =>
      let y : Nat :=
        match e.publish_date with
        | some pd =>
          if pd = "" then 0
          else
            (match extractYear pd with
             | some y => y
             | none => 0)
        | none => 0
      some (y, c)
    | none => none)

/-- Head of the stable descending-by-year sort: the first candidate
attaining the maximal year (Python's stable `sort(reverse=True)` then
`[0]`). -/
def pickNewest (x : Nat × Int) (xs : List (Nat × Int)) : Nat × Int :=
  xs.foldl (fun best p => if best.1 < p.1 then p else best) x

/-- The cover id selected from the listed editions, if any carries one. -/
def newestCoverId (entries : List EditionEntry) : Option Int :=
  match coverCandidates entries with
  | [] => none
  | x :: xs => some (pickNewest x xs).2

/-- Cover block: first valid cover of the fetched edition; else the cover
of the newest-year edition of a limit-50 listing; else the work's first
valid cover. -/
def mergeCover (net : Network) (wd : WorkData) (ed : Option EditionData)
    (b : Book) : Book :=
  if b.cover_url = "" then
    let edCover : Option Int :=
      match ed with
      | some e => firstValidCover e.covers
      | none => none
    match edCover with
    | some c => { b with cover_url := coverUrlOf c }
    | none =>
      let fromWork : Book :=
        match firstValidCover wd.covers with
        | some c => { b with cover_url := coverUrlOf c }
        | none => b
      match net.editionsJson (editionsUrlFixed wd) 50 with
      | some entries =>
        (match newestCoverId entries with
         | some c => { b with cover_url := coverUrlOf c }
         | none => fromWork)
      | none => fromWork
  else b

/-- The whole merge of a resolved work (and optional edition) into the
record, in the source's block order. -/
def applyWorkData (net : Network) (wd : WorkData) (ed : Option EditionData)
    (b : Book) : Book :=
  mergeCover net wd ed
    (mergeYear net wd ed
      (mergeCategory wd ed
        (mergeDescFallback net wd ed
          (mergeDescWork wd
            (mergeAuthor net wd
              (mergeTitle wd ed b))))))

/-! ### The resolver (`fetch_book_data_from_openlibrary`) -/

/-- Edition phase (lines 109-131), entered when the id is classified as an
edition: fetch the edition; on success follow its first linked work key
(when non-empty) to fetch the parent work.  Returns the fetched edition,
the work obtained through it, and the work-endpoint URLs requested. -/
def editionPhase (net : Network) (id : String) :
    Option EditionData × Option WorkData × List String :=
  if upperContains id 'M' then
    match net.editionJson (editionUrl id) with
    | some ed =>
      (match ed.works.head? with
       | some wkey =>
         if wkey = "" then (some ed, none, [])
         else
           let wurl := "https://openlibrary.org" ++ wkey ++ ".json"
           (some ed, net.workJson wurl, [wurl])
       | none => (some ed, none, []))
    | none => (none, none, [])
  else (none, none, [])

/-- Whole by-id phase (lines 102-151): the edition phase, then - when the
id is classified as a work or no work data was obtained - the direct work
lookup with the formatted URL and, on its failure, with the raw URL; a
successful direct lookup replaces the work data, a failed one keeps it. -/
def idPhase (net : Network) (id : String) :
    Option EditionData × Option WorkData × List String :=
  match editionPhase net id with
  | (ed, wd0, log1) =>
    if upperContains id 'W' ∨ wd0 = none then
      match net.workJson (fmtWorkUrl id) with
      | some wd => (ed, some wd, log1 ++ [fmtWorkUrl id])
      | none =>
        (match net.workJson (rawWorkUrl id) with
         | some wd => (ed, some wd, log1 ++ [fmtWorkUrl id, rawWorkUrl id])
         | none => (ed, wd0, log1 ++ [fmtWorkUrl id, rawWorkUrl id]))
    else (ed, wd0, log1)

/-- Outcome of the by-title block before any recursion. -/
inductive TOut where
  | noSearch
  | failed
  | done (b : Book)
  | recurse (b : Book)
deriving DecidableEq, Repr

/-- Field updates applied from the top search document (lines 389-414):
external_id from the key's last segment, up to three author names joined,
a truthy first_publish_year, up to two subjects joined, and a cover URL
from a truthy cover id - each applied unconditionally when present. -/
def applyDoc (doc : SearchDoc) (b : Book) : Book :=
  let b1 := if doc.key = "" then b else { b with external_id := lastToken doc.key }
  let b2 := if doc.author_name = [] then b1
            else { b1 with author := joinComma (doc.author_name.take 3) }
  let b3 :=
    match doc.first_publish_year with
    | some y => if y = 0 then b2 else { b2 with publication_year := some y }
    | none => b2
  let b4 := if doc.subject = [] then b3
            else { b3 with category := joinComma (doc.subject.take 2) }
  match doc.cover_i with
  | some c => if c = 0 then b4 else { b4 with cover_url := coverUrlOf c }
  | none => b4

/-- By-title block (lines 376-421): search only when the title is non-empty
and not the sentinel; a failed request or empty result list fails; a top
document is applied, then the call recurses when external_id became
truthy, else returns true. -/
def titleStep (net : Network) (b : Book) : TOut :=
  if b.title ≠ "" ∧ b.title ≠ "Sin título" then
    match net.searchTitle b.title with
    | some docs =>
      (match docs.head? with
       | some doc =>
         let b5 := applyDoc doc b
         if b5.external_id = "" then TOut.done b5 else TOut.recurse b5
       | none => TOut.failed)
    | none => TOut.failed
  else TOut.noSearch

/-- Result of one resolver call: the returned boolean, the mutated record,
the number of search-endpoint requests issued, and the work-endpoint URLs
requested, in order. -/
structure ROut where
  ok : Bool
  book : Book
  searchCalls : Nat
  workLookups : List String
deriving DecidableEq, Repr

/-- `fetch_book_data_from_openlibrary`, indexed by recursion fuel.  With
a truthy external_id the by-id phase runs; obtained work data is merged and
the call returns true.  Otherwise - including when the by-id phase obtained
nothing - control falls into the by-title block (the source's line 376 is
not guarded by the absence of external_id), which may recurse after
populating external_id from the search result. -/
def fetchBookData (net : Network) : Nat → Book → ROut
  | 0, b => ⟨false, b, 0, []⟩
  | Nat.succ fuel, b =>
    if b.external_id ≠ "" then
      match (idPhase net b.external_id).2.1 with
      | some wd =>
        ⟨true, applyWorkData net wd (idPhase net b.external_id).1 b, 0,
         (idPhase net b.external_id).2.2⟩
      | none =>
        (match titleStep net b with
         | TOut.noSearch => ⟨false, b, 0, (idPhase net b.external_id).2.2⟩
         | TOut.failed => ⟨false, b, 1, (idPhase net b.external_id).2.2⟩
         | TOut.done b5 => ⟨true, b5, 1, (idPhase net b.external_id).2.2⟩
         | TOut.recurse b5 =>
           let r := fetchBookData net fuel b5
           ⟨r.ok, r.book, r.searchCalls + 1,
            (idPhase net b.external_id).2.2 ++ r.workLookups⟩)
    else
      match titleStep net b with
      | TOut.noSearch => ⟨false, b, 0, []⟩
      | TOut.failed => ⟨false, b, 1, []⟩
      | TOut.done b5 => ⟨true, b5, 1, []⟩
      | TOut.recurse b5 =>
        let r := fetchBookData net fuel b5
        ⟨r.ok, r.book, r.searchCalls + 1, r.workLookups⟩

/-! ### `save` -/

/-- The fetch trigger of `save`: external data is fetched when any required
field is falsy. -/
def needsFetch (b : Book) : Bool :=
  b.title == "" || b.author == "" || b.description == "" ||
  b.category == "" || yearFalsy b.publication_year

/-- `if not self.title or self.title == "": self.title = "Sin título"`. -/
def defTitle (b : Book) : Book :=
  if b.title = "" then { b with title := "Sin título" } else b

/-- `if not self.author or ...: self.author = "Autor desconocido"`. -/
def defAuthor (b : Book) : Book :=
  if b.author = "" then { b with author := "Autor desconocido" } else b

/-- `if not self.description or ...: ... = "Sin descripción disponible"`. -/
def defDescription (b : Book) : Book :=
  if b.description = "" then { b with description := "Sin descripción disponible" } else b

/-- `if not self.category or ...: self.category = "General"`. -/
def defCategory (b : Book) : Book :=
  if b.category = "" then { b with category := "General" } else b

/-- `if not self.publication_year: self.publication_year = 2000`. -/
def defYear (b : Book) : Book :=
  if yearFalsy b.publication_year then { b with publication_year := some 2000 } else b

/-- The unconditional default pass of `save` (lines 454-463), the five
guarded assignments in source order. -/
def applyDefaults (b : Book) : Book :=
  defYear (defCategory (defDescription (defAuthor (defTitle b))))

/-- `Book.save`: fetch when external_id is truthy and a required field is
missing, then apply the defaults and persist the resulting record. -/
def saveBook (net : Network) (fuel : Nat) (b : Book) : Book :=
  let b1 := if b.external_id ≠ "" ∧ needsFetch b then (fetchBookData net fuel b).book
            else b
  applyDefaults b1

/-! ### `get_cover_url` -/

/-- `Book.get_cover_url`: the manually-set cover when truthy (no request);
else one title+author search whose top document's truthy cover id yields a
cover URL, anything else yielding nothing.  The second component counts the
search requests issued; the record itself is never written. -/
def getCoverUrl (net : Network) (b : Book) : Option String × Nat :=
  if b.cover_url ≠ "" then (some b.cover_url, 0)
  else
    match net.searchTitleAuthor b.title b.author with
    | some docs =>
      (match docs.head? with
       | some doc =>
         (match doc.cover_i with
          | some c => if c = 0 then (none, 1) else (some (coverUrlOf c), 1)
          | none => (none, 1))
       | none => (none, 1))
    | none => (none, 1)

/-! ### Favorites (`Favorite` model, `toggle_favorite` view)

The favorites table is a list of `(user, book)` rows; `unique_together`
is the `List.Nodup` invariant.  `toggle_favorite` is the only operation of
the repository that writes this table: `get_or_create` followed by a
delete when the row already existed. -/

/-- One `Favorite` row (primary keys of the two foreign keys). -/
structure Fav where
  user : Nat
  book : Nat
deriving DecidableEq, Repr

/-- `toggle_favorite`: remove the row when present (`created = false`),
else append it (`created = true`); the boolean reports `created`. -/
def toggleFavorite (favs : List Fav) (u bk : Nat) : List Fav × Bool :=
  if (⟨u, bk⟩ : Fav) ∈ favs then (favs.erase ⟨u, bk⟩, false)
  else (favs ++ [⟨u, bk⟩], true)

/-! ### Concrete fixtures for closed evaluations

One record/network pair per scenario; each network answers exactly the
requests of its scenario and fails every other one. -/

/-- Work payload reachable only under the id `OL1W`. -/
def wdC1 : WorkData :=
  ⟨some "Dune", [], some (JVal.s "Epic"), ["SF"], [], [7], "/works/OL1W"⟩

/-- Every lookup of the record's own id fails; the title search matches and
hands back the unrelated work key `/works/OL1W`. -/
def netC1 : Network :=
  { editionJson := fun _ => none
    workJson := fun u =>
      if u = "https://openlibrary.org/works/OL1W.json" then some wdC1 else none
    authorJson := fun _ => none
    editionsJson := fun _ _ => none
    searchTitle := fun t =>
      if t = "Dune" then
        some [⟨"/works/OL1W", ["Frank Herbert"], some 1965, ["Fiction"], some 42⟩]
      else none
    searchTitleAuthor := fun _ _ => none }

/-- A record with a present (but unresolvable) external id and a real title. -/
def bookC1 : Book := ⟨"Dune", "", "", "", none, "OL123X", ""⟩

/-- A fully-populated record without external id. -/
def bookC2 : Book :=
  ⟨"Dune", "Frank Herbert", "A classic.", "Novel", some 1965, "",
   "http://example.com/cover.jpg"⟩

/-- The title search returns a top document with different data. -/
def netC2 : Network :=
  { editionJson := fun _ => none
    workJson := fun _ => none
    authorJson := fun _ => none
    editionsJson := fun _ _ => none
    searchTitle := fun t =>
      if t = "Dune" then some [⟨"", ["X Y"], some 1970, ["Z"], some 9⟩] else none
    searchTitleAuthor := fun _ _ => none }

/-- A fully-populated record whose external id resolves to work data. -/
def bookC2w : Book :=
  ⟨"Neuromancer", "William Gibson", "Cyberpunk.", "SF", some 1984, "OL2W",
   "http://example.com/n.jpg"⟩

/-- Work payload for the witness record's id. -/
def wdC2w : WorkData :=
  ⟨some "Neuromancer", [some "/authors/OL2A"], some (JVal.s "Other"), ["Cyber"],
   [], [5], "/works/OL2W"⟩

/-- Network resolving exactly the witness record's formatted work URL. -/
def netC2w : Network :=
  { editionJson := fun _ => none
    workJson := fun u => if u = fmtWorkUrl "OL2W" then some wdC2w else none
    authorJson := fun _ => none
    editionsJson := fun _ _ => none
    searchTitle := fun _ => none
    searchTitleAuthor := fun _ _ => none }

/-- A partially-populated record (only the author is set) whose external id
resolves to work data. -/
def bookC2p : Book := ⟨"", "William Gibson", "", "", none, "OL2W", ""⟩

/-- A network on which every request fails. -/
def deadNet : Network :=
  ⟨fun _ => none, fun _ => none, fun _ => none, fun _ _ => none,
   fun _ => none, fun _ _ => none⟩

/-- A record with every field empty. -/
def emptyBook : Book := ⟨"", "", "", "", none, "", ""⟩

/-- No external id, a real title. -/
def bookC4 : Book := ⟨"Dune", "", "", "", none, "", ""⟩

/-- The search always matches with a work key whose id never resolves. -/
def netC4 : Network :=
  { editionJson := fun _ => none
    workJson := fun _ => none
    authorJson := fun _ => none
    editionsJson := fun _ _ => none
    searchTitle := fun t =>
      if t = "Dune" then some [⟨"/works/OL9W", [], none, [], none⟩] else none
    searchTitleAuthor := fun _ _ => none }

/-- No external id, a real title, for the zero-results witness. -/
def bookC4w : Book := ⟨"Nada", "", "", "", none, "", ""⟩

/-- The title search answers with zero results. -/
def netC4w : Network :=
  { editionJson := fun _ => none
    workJson := fun _ => none
    authorJson := fun _ => none
    editionsJson := fun _ _ => none
    searchTitle := fun t => if t = "Nada" then some [] else none
    searchTitleAuthor := fun _ _ => none }

/-- An edition-form external id. -/
def bookC5 : Book := ⟨"", "", "", "", none, "OL7M", ""⟩

/-- Work payload reached only through the formatted direct lookup. -/
def wdC5 : WorkData := ⟨some "T5", [], none, ["S5"], [], [3], "/works/OL7W"⟩

/-- The edition fetch fails; the formatted work lookup succeeds. -/
def netC5 : Network :=
  { editionJson := fun _ => none
    workJson := fun u => if u = fmtWorkUrl "OL7M" then some wdC5 else none
    authorJson := fun _ => none
    editionsJson := fun _ _ => none
    searchTitle := fun _ => none
    searchTitleAuthor := fun _ _ => none }

/-- An external id containing neither `M` nor `W`, and no title. -/
def bookC6 : Book := ⟨"", "", "", "", none, "12345", ""⟩

/-- Both direct work lookups fail (every request fails). -/
def netC6 : Network :=
  ⟨fun _ => none, fun _ => none, fun _ => none, fun _ _ => none,
   fun _ => none, fun _ _ => none⟩

/-- Fetched edition for the cover-precedence scenario: cover id `111`. -/
def edC7 : EditionData := ⟨some "T7", [], none, [], none, [111]⟩

/-- Parent work of the cover-precedence scenario (no own covers). -/
def wdC7 : WorkData := ⟨some "T7", [], none, [], [], [], "/works/OL6W"⟩

/-- Edition fetch and formatted work lookup succeed; the listing holds a
newer edition with cover `222` and an older one with cover `333`. -/
def netC7 : Network :=
  { editionJson := fun u => if u = editionUrl "OL6M" then some edC7 else none
    workJson := fun u => if u = fmtWorkUrl "OL6M" then some wdC7 else none
    authorJson := fun _ => none
    editionsJson := fun u n =>
      if u = editionsUrlFixed wdC7 ∧ n = 50 then
        some [⟨none, none, some "2020", [222]⟩, ⟨none, none, some "1990", [333]⟩]
      else none
    searchTitle := fun _ => none
    searchTitleAuthor := fun _ _ => none }

/-- Empty record carrying the scenario's edition id. -/
def bookC7 : Book := ⟨"", "", "", "", none, "OL6M", ""⟩

/-- Fetched edition whose publish date extracts exactly the sentinel year. -/
def edC8 : EditionData := ⟨some "T8", [], none, [], some "2000", []⟩

/-- Parent work of the year scenario. -/
def wdC8 : WorkData := ⟨some "T8", [], none, [], [], [], "/works/OL5W"⟩

/-- A listed edition dated 1999. -/
def entC8 : EditionEntry := ⟨none, none, some "1999", []⟩

/-- Edition and formatted work lookups succeed; the listing holds `entC8`. -/
def netC8 : Network :=
  { editionJson := fun u => if u = editionUrl "OL5M" then some edC8 else none
    workJson := fun u => if u = fmtWorkUrl "OL5M" then some wdC8 else none
    authorJson := fun _ => none
    editionsJson := fun u n =>
      if u = editionsUrlFixed wdC8 ∧ n = 50 then some [entC8] else none
    searchTitle := fun _ => none
    searchTitleAuthor := fun _ _ => none }

/-- Empty record carrying the year scenario's edition id. -/
def bookC8 : Book := ⟨"", "", "", "", none, "OL5M", ""⟩

/-- Witness fixtures for the year rule: an edition dated 1984. -/
def edC8w : EditionData := ⟨some "T8w", [], none, [], some "1984", []⟩

/-- Trivial parent work for the year witness. -/
def wdC8w : WorkData := ⟨some "T8w", [], none, [], [], [], "/works/OL8W"⟩

/-- All requests fail (the listing must not be needed). -/
def netC8w : Network :=
  ⟨fun _ => none, fun _ => none, fun _ => none, fun _ _ => none,
   fun _ => none, fun _ _ => none⟩

/-- Record with an empty year. -/
def bookC8w : Book := ⟨"", "", "", "", none, "OL8M", ""⟩

/-- A record with a manually-set cover. -/
def bookC9 : Book :=
  ⟨"T9", "A9", "", "", none, "", "http://example.com/manual.jpg"⟩

/-- All requests fail (none may be needed). -/
def netC9 : Network :=
  ⟨fun _ => none, fun _ => none, fun _ => none, fun _ _ => none,
   fun _ => none, fun _ _ => none⟩

/-! ### Helper lemmas -/

theorem mergeTitle_skip (wd : WorkData) (ed : Option EditionData) (b : Book)
    (h1 : b.title ≠ "") (h2 : b.title ≠ "Sin título") :
    mergeTitle wd ed b = b := by
  unfold mergeTitle
  rw [if_neg]
  rintro (h | h) <;> [exact h1 h; exact h2 h]

theorem mergeAuthor_skip (net : Network) (wd : WorkData) (b : Book)
    (h1 : b.author ≠ "") (h2 : b.author ≠ "Autor desconocido") :
    mergeAuthor net wd b = b := by
  unfold mergeAuthor
  split
  · rw [if_neg]
    rintro ⟨-, (h | h)⟩ <;> [exact h1 h; exact h2 h]
  · rfl

theorem mergeDescWork_skip (wd : WorkData) (b : Book)
    (h1 : b.description ≠ "") (h2 : b.description ≠ "Sin descripción disponible") :
    mergeDescWork wd b = b := by
  unfold mergeDescWork
  rw [if_neg]
  rintro (h | h) <;> [exact h1 h; exact h2 h]

theorem mergeDescFallback_skip (net : Network) (wd : WorkData)
    (ed : Option EditionData) (b : Book)
    (h1 : b.description ≠ "") (h2 : b.description ≠ "Sin descripción disponible") :
    mergeDescFallback net wd ed b = b := by
  unfold mergeDescFallback
  rw [if_neg]
  rintro (h | h) <;> [exact h1 h; exact h2 h]

theorem mergeCategory_skip (wd : WorkData) (ed : Option EditionData) (b : Book)
    (h1 : b.category ≠ "") (h2 : b.category ≠ "General") :
    mergeCategory wd ed b = b := by
  unfold mergeCategory
  rw [if_neg]
  rintro (h | h) <;> [exact h1 h; exact h2 h]

theorem yearGuard_false (b : Book) (y : Nat)
    (hy : b.publication_year = some y) (h0 : y ≠ 0) (h2000 : y ≠ 2000) :
    yearGuard b = false := by
  simp [yearGuard, yearFalsy, hy, h0, h2000]

theorem mergeYear_skip (net : Network) (wd : WorkData) (ed : Option EditionData)
    (b : Book) (hg : yearGuard b = false) :
    mergeYear net wd ed b = b := by
  unfold mergeYear
  simp [hg]

theorem mergeCover_skip (net : Network) (wd : WorkData) (ed : Option EditionData)
    (b : Book) (h : b.cover_url ≠ "") :
    mergeCover net wd ed b = b := by
  unfold mergeCover
  rw [if_neg h]

theorem assignDescLike_title (j : JVal) (b : Book) :
    (assignDescLike j b).title = b.title := by
  unfold assignDescLike
  repeat' split
  all_goals simp [apply_ite]

theorem assignDescLike_author (j : JVal) (b : Book) :
    (assignDescLike j b).author = b.author := by
  unfold assignDescLike
  repeat' split
  all_goals simp [apply_ite]

theorem assignDescLike_category (j : JVal) (b : Book) :
    (assignDescLike j b).category = b.category := by
  unfold assignDescLike
  repeat' split
  all_goals simp [apply_ite]

theorem assignDescLike_year (j : JVal) (b : Book) :
    (assignDescLike j b).publication_year = b.publication_year := by
  unfold assignDescLike
  repeat' split
  all_goals simp [apply_ite]

theorem assignDescLike_cover (j : JVal) (b : Book) :
    (assignDescLike j b).cover_url = b.cover_url := by
  unfold assignDescLike
  repeat' split
  all_goals simp [apply_ite]

theorem descNotes_title (first : EditionEntry) (b : Book) :
    (descNotes first b).title = b.title := by
  unfold descNotes
  repeat' split
  all_goals simp [apply_ite]

theorem descNotes_author (first : EditionEntry) (b : Book) :
    (descNotes first b).author = b.author := by
  unfold descNotes
  repeat' split
  all_goals simp [apply_ite]

theorem descNotes_category (first : EditionEntry) (b : Book) :
    (descNotes first b).category = b.category := by
  unfold descNotes
  repeat' split
  all_goals simp [apply_ite]

theorem descNotes_year (first : EditionEntry) (b : Book) :
    (descNotes first b).publication_year = b.publication_year := by
  unfold descNotes
  repeat' split
  all_goals simp [apply_ite]

theorem descNotes_cover (first : EditionEntry) (b : Book) :
    (descNotes first b).cover_url = b.cover_url := by
  unfold descNotes
  repeat' split
  all_goals simp [apply_ite]

theorem mergeTitle_frame (wd : WorkData) (ed : Option EditionData) (b : Book) :
    (mergeTitle wd ed b).author = b.author ∧
    (mergeTitle wd ed b).description = b.description ∧
    (mergeTitle wd ed b).category = b.category ∧
    (mergeTitle wd ed b).publication_year = b.publication_year ∧
    (mergeTitle wd ed b).cover_url = b.cover_url := by
  unfold mergeTitle
  split <;> simp

theorem mergeAuthor_frame (net : Network) (wd : WorkData) (b : Book) :
    (mergeAuthor net wd b).title = b.title ∧
    (mergeAuthor net wd b).description = b.description ∧
    (mergeAuthor net wd b).category = b.category ∧
    (mergeAuthor net wd b).publication_year = b.publication_year ∧
    (mergeAuthor net wd b).cover_url = b.cover_url := by
  unfold mergeAuthor
  refine ⟨?_, ?_, ?_, ?_, ?_⟩ <;> (repeat' split) <;> simp [apply_ite]

theorem mergeDescWork_frame (wd : WorkData) (b : Book) :
    (mergeDescWork wd b).title = b.title ∧
    (mergeDescWork wd b).author = b.author ∧
    (mergeDescWork wd b).category = b.category ∧
    (mergeDescWork wd b).publication_year = b.publication_year ∧
    (mergeDescWork wd b).cover_url = b.cover_url := by
  unfold mergeDescWork
  refine ⟨?_, ?_, ?_, ?_, ?_⟩ <;> (repeat' split) <;> simp [apply_ite]

theorem mergeDescFallback_frame (net : Network) (wd : WorkData)
    (ed : Option EditionData) (b : Book) :
    (mergeDescFallback net wd ed b).title = b.title ∧
    (mergeDescFallback net wd ed b).author = b.author ∧
    (mergeDescFallback net wd ed b).category = b.category ∧
    (mergeDescFallback net wd ed b).publication_year = b.publication_year ∧
    (mergeDescFallback net wd ed b).cover_url = b.cover_url := by
  unfold mergeDescFallback
  refine ⟨?_, ?_, ?_, ?_, ?_⟩ <;> (repeat' split) <;>
    simp [apply_ite, assignDescLike_title, assignDescLike_author,
          assignDescLike_category, assignDescLike_year, assignDescLike_cover,
          descNotes_title, descNotes_author, descNotes_category, descNotes_year,
          descNotes_cover]

theorem mergeCategory_frame (wd : WorkData) (ed : Option EditionData) (b : Book) :
    (mergeCategory wd ed b).title = b.title ∧
    (mergeCategory wd ed b).author = b.author ∧
    (mergeCategory wd ed b).description = b.description ∧
    (mergeCategory wd ed b).publication_year = b.publication_year ∧
    (mergeCategory wd ed b).cover_url = b.cover_url := by
  unfold mergeCategory
  refine ⟨?_, ?_, ?_, ?_, ?_⟩ <;> (repeat' split) <;> simp [apply_ite]

theorem mergeYear_frame (net : Network) (wd : WorkData) (ed : Option EditionData)
    (b : Book) :
    (mergeYear net wd ed b).title = b.title ∧
    (mergeYear net wd ed b).author = b.author ∧
    (mergeYear net wd ed b).description = b.description ∧
    (mergeYear net wd ed b).category = b.category ∧
    (mergeYear net wd ed b).cover_url = b.cover_url := by
  unfold mergeYear
  refine ⟨?_, ?_, ?_, ?_, ?_⟩ <;> (repeat' split) <;> simp [apply_ite]

theorem mergeCover_frame (net : Network) (wd : WorkData) (ed : Option EditionData)
    (b : Book) :
    (mergeCover net wd ed b).title = b.title ∧
    (mergeCover net wd ed b).author = b.author ∧
    (mergeCover net wd ed b).description = b.description ∧
    (mergeCover net wd ed b).category = b.category ∧
    (mergeCover net wd ed b).publication_year = b.publication_year := by
  by_cases hb : b.cover_url = ""
  · unfold mergeCover
    rw [if_pos hb]
    rcases ed with _ | e
    · simp only
      rcases hl : net.editionsJson (editionsUrlFixed wd) 50 with _ | entries
      · rcases hw : firstValidCover wd.covers with _ | c <;> simp [*]
      · rcases hn : newestCoverId entries with _ | c
        · rcases hw : firstValidCover wd.covers with _ | c <;> simp [*]
        · simp [*]
    · rcases hc : firstValidCover e.covers with _ | c
      · simp only
        rcases hl : net.editionsJson (editionsUrlFixed wd) 50 with _ | entries
        · rcases hw : firstValidCover wd.covers with _ | c <;> simp [*]
        · rcases hn : newestCoverId entries with _ | c
          · rcases hw : firstValidCover wd.covers with _ | c <;> simp [*]
          · simp [*]
      · simp [*]
  · unfold mergeCover
    rw [if_neg hb]
    simp

/-- A fully-populated record (every field non-empty and distinct from its
sentinel) passes through the whole by-id merge unchanged. -/
theorem applyWorkData_skip (net : Network) (wd : WorkData)
    (ed : Option EditionData) (b : Book)
    (ht : b.title ≠ "" ∧ b.title ≠ "Sin título")
    (ha : b.author ≠ "" ∧ b.author ≠ "Autor desconocido")
    (hd : b.description ≠ "" ∧ b.description ≠ "Sin descripción disponible")
    (hc : b.category ≠ "" ∧ b.category ≠ "General")
    (hy : ∃ y, b.publication_year = some y ∧ y ≠ 0 ∧ y ≠ 2000)
    (hcu : b.cover_url ≠ "") :
    applyWorkData net wd ed b = b := by
  obtain ⟨y, hy1, hy2, hy3⟩ := hy
  unfold applyWorkData
  rw [mergeTitle_skip wd ed b ht.1 ht.2,
      mergeAuthor_skip net wd b ha.1 ha.2,
      mergeDescWork_skip wd b hd.1 hd.2,
      mergeDescFallback_skip net wd ed b hd.1 hd.2,
      mergeCategory_skip wd ed b hc.1 hc.2,
      mergeYear_skip net wd ed b (yearGuard_false b y hy1 hy2 hy3),
      mergeCover_skip net wd ed b hcu]

/-- A populated, non-sentinel title passes through the whole by-id merge
untouched, whatever the other fields hold. -/
theorem applyWorkData_title (net : Network) (wd : WorkData)
    (ed : Option EditionData) (b : Book)
    (h1 : b.title ≠ "") (h2 : b.title ≠ "Sin título") :
    (applyWorkData net wd ed b).title = b.title := by
  unfold applyWorkData
  rw [mergeTitle_skip wd ed b h1 h2,
      (mergeCover_frame net wd ed _).1, (mergeYear_frame net wd ed _).1,
      (mergeCategory_frame wd ed _).1, (mergeDescFallback_frame net wd ed _).1,
      (mergeDescWork_frame wd _).1, (mergeAuthor_frame net wd _).1]

/-- A populated, non-sentinel author passes through the whole by-id merge
untouched, whatever the other fields hold. -/
theorem applyWorkData_author (net : Network) (wd : WorkData)
    (ed : Option EditionData) (b : Book)
    (h1 : b.author ≠ "") (h2 : b.author ≠ "Autor desconocido") :
    (applyWorkData net wd ed b).author = b.author := by
  have hf : (mergeTitle wd ed b).author = b.author := (mergeTitle_frame wd ed b).1
  unfold applyWorkData
  rw [(mergeCover_frame net wd ed _).2.1, (mergeYear_frame net wd ed _).2.1,
      (mergeCategory_frame wd ed _).2.1, (mergeDescFallback_frame net wd ed _).2.1,
      (mergeDescWork_frame wd _).2.1,
      mergeAuthor_skip net wd _ (by rw [hf]; exact h1) (by rw [hf]; exact h2)]
  exact hf

/-- A populated, non-sentinel description passes through the whole by-id
merge untouched, whatever the other fields hold. -/
theorem applyWorkData_description (net : Network) (wd : WorkData)
    (ed : Option EditionData) (b : Book)
    (h1 : b.description ≠ "") (h2 : b.description ≠ "Sin descripción disponible") :
    (applyWorkData net wd ed b).description = b.description := by
  have hf : (mergeAuthor net wd (mergeTitle wd ed b)).description = b.description := by
    rw [(mergeAuthor_frame net wd _).2.1, (mergeTitle_frame wd ed b).2.1]
  unfold applyWorkData
  rw [(mergeCover_frame net wd ed _).2.2.1, (mergeYear_frame net wd ed _).2.2.1,
      (mergeCategory_frame wd ed _).2.2.1]
  rw [mergeDescWork_skip wd _ (by rw [hf]; exact h1) (by rw [hf]; exact h2)]
  rw [mergeDescFallback_skip net wd ed _ (by rw [hf]; exact h1) (by rw [hf]; exact h2)]
  exact hf

/-- A populated, non-sentinel category passes through the whole by-id merge
untouched, whatever the other fields hold. -/
theorem applyWorkData_category (net : Network) (wd : WorkData)
    (ed : Option EditionData) (b : Book)
    (h1 : b.category ≠ "") (h2 : b.category ≠ "General") :
    (applyWorkData net wd ed b).category = b.category := by
  have hf : (mergeDescFallback net wd ed (mergeDescWork wd
      (mergeAuthor net wd (mergeTitle wd ed b)))).category = b.category := by
    rw [(mergeDescFallback_frame net wd ed _).2.2.1, (mergeDescWork_frame wd _).2.2.1,
        (mergeAuthor_frame net wd _).2.2.1, (mergeTitle_frame wd ed b).2.2.1]
  unfold applyWorkData
  rw [(mergeCover_frame net wd ed _).2.2.2.1, (mergeYear_frame net wd ed _).2.2.2.1,
      mergeCategory_skip wd ed _ (by rw [hf]; exact h1) (by rw [hf]; exact h2)]
  exact hf

/-- A publication year other than `None`, `0` and the sentinel `2000`
passes through the whole by-id merge untouched, whatever the other fields
hold. -/
theorem applyWorkData_year (net : Network) (wd : WorkData)
    (ed : Option EditionData) (b : Book) (y : Nat)
    (hy : b.publication_year = some y) (h0 : y ≠ 0) (h2000 : y ≠ 2000) :
    (applyWorkData net wd ed b).publication_year = b.publication_year := by
  have hf : (mergeCategory wd ed (mergeDescFallback net wd ed (mergeDescWork wd
      (mergeAuthor net wd (mergeTitle wd ed b))))).publication_year =
      b.publication_year := by
    rw [(mergeCategory_frame wd ed _).2.2.2.1,
        (mergeDescFallback_frame net wd ed _).2.2.2.1,
        (mergeDescWork_frame wd _).2.2.2.1, (mergeAuthor_frame net wd _).2.2.2.1,
        (mergeTitle_frame wd ed b).2.2.2.1]
  unfold applyWorkData
  rw [(mergeCover_frame net wd ed _).2.2.2.2,
      mergeYear_skip net wd ed _ (yearGuard_false _ y (by rw [hf]; exact hy) h0 h2000)]
  exact hf

/-- A populated cover URL passes through the whole by-id merge untouched,
whatever the other fields hold. -/
theorem applyWorkData_cover (net : Network) (wd : WorkData)
    (ed : Option EditionData) (b : Book) (h : b.cover_url ≠ "") :
    (applyWorkData net wd ed b).cover_url = b.cover_url := by
  have hf : (mergeYear net wd ed (mergeCategory wd ed (mergeDescFallback net wd ed
      (mergeDescWork wd (mergeAuthor net wd (mergeTitle wd ed b)))))).cover_url =
      b.cover_url := by
    rw [(mergeYear_frame net wd ed _).2.2.2.2, (mergeCategory_frame wd ed _).2.2.2.2,
        (mergeDescFallback_frame net wd ed _).2.2.2.2,
        (mergeDescWork_frame wd _).2.2.2.2, (mergeAuthor_frame net wd _).2.2.2.2,
        (mergeTitle_frame wd ed b).2.2.2.2]
  unfold applyWorkData
  rw [mergeCover_skip net wd ed _ (by rw [hf]; exact h)]
  exact hf

theorem defTitle_title (b : Book) : (defTitle b).title ≠ "" := by
  unfold defTitle; split <;> simp_all

theorem defAuthor_author (b : Book) : (defAuthor b).author ≠ "" := by
  unfold defAuthor; split <;> simp_all

theorem defDescription_description (b : Book) : (defDescription b).description ≠ "" := by
  unfold defDescription; split <;> simp_all

theorem defCategory_category (b : Book) : (defCategory b).category ≠ "" := by
  unfold defCategory; split <;> simp_all

theorem defYear_year (b : Book) : yearFalsy (defYear b).publication_year = false := by
  unfold defYear; split <;> simp_all [yearFalsy]

theorem defAuthor_keeps (b : Book) :
    (defAuthor b).title = b.title ∧ (defAuthor b).description = b.description ∧
    (defAuthor b).category = b.category ∧
    (defAuthor b).publication_year = b.publication_year := by
  unfold defAuthor; split <;> simp_all

theorem defDescription_keeps (b : Book) :
    (defDescription b).title = b.title ∧ (defDescription b).author = b.author ∧
    (defDescription b).category = b.category ∧
    (defDescription b).publication_year = b.publication_year := by
  unfold defDescription; split <;> simp_all

theorem defCategory_keeps (b : Book) :
    (defCategory b).title = b.title ∧ (defCategory b).author = b.author ∧
    (defCategory b).description = b.description ∧
    (defCategory b).publication_year = b.publication_year := by
  unfold defCategory; split <;> simp_all

theorem defYear_keeps (b : Book) :
    (defYear b).title = b.title ∧ (defYear b).author = b.author ∧
    (defYear b).description = b.description ∧ (defYear b).category = b.category := by
  unfold defYear; split <;> simp_all

theorem pickNewest_mem (x : Nat × Int) (xs : List (Nat × Int)) :
    pickNewest x xs ∈ x :: xs := by
  induction xs generalizing x with
  | nil => simp [pickNewest]
  | cons p xs ih =>
    simp only [pickNewest, List.foldl_cons]
    have h := ih (if x.1 < p.1 then p else x)
    simp only [pickNewest] at h
    rcases List.mem_cons.mp h with h1 | h2
    · rw [h1]
      split <;> simp
    · simp [List.mem_cons.mpr (Or.inr (List.mem_cons.mpr (Or.inr h2)))]

theorem pickNewest_max (x : Nat × Int) (xs : List (Nat × Int)) :
    ∀ q ∈ x :: xs, q.1 ≤ (pickNewest x xs).1 := by
  induction xs generalizing x with
  | nil =>
    intro q hq
    rw [List.mem_singleton] at hq
    simp [pickNewest, hq]
  | cons p xs ih =>
    intro q hq
    simp only [pickNewest, List.foldl_cons]
    have hx : x.1 ≤ (if x.1 < p.1 then p else x).1 := by split <;> omega
    have hp : p.1 ≤ (if x.1 < p.1 then p else x).1 := by split <;> omega
    have H := ih (if x.1 < p.1 then p else x)
    simp only [pickNewest] at H
    have Hhead := H _ (List.mem_cons_self _ _)
    rcases List.mem_cons.mp hq with rfl | hq2
    · exact Nat.le_trans hx Hhead
    · rcases List.mem_cons.mp hq2 with rfl | hq3
      · exact Nat.le_trans hp Hhead
      · exact H q (List.mem_cons.mpr (Or.inr hq3))

theorem oldestStep_some (o : Nat) (e : EditionEntry) :
    ∃ o', oldestStep (some o) e = some o' ∧ o' ≤ o := by
  rcases hpd : e.publish_date with _ | pd
  · exact ⟨o, by simp [oldestStep, hpd], Nat.le_refl o⟩
  · by_cases hne : pd = ""
    · exact ⟨o, by simp [oldestStep, hpd, hne], Nat.le_refl o⟩
    · rcases hy : extractYear pd with _ | y
      · exact ⟨o, by simp [oldestStep, hpd, hne, hy], Nat.le_refl o⟩
      · by_cases hlt : y < o
        · exact ⟨y, by simp [oldestStep, hpd, hne, hy, hlt], Nat.le_of_lt hlt⟩
        · exact ⟨o, by simp [oldestStep, hpd, hne, hy, hlt], Nat.le_refl o⟩

theorem oldestStep_le_year (acc : Option Nat) (e : EditionEntry) (pd : String)
    (y : Nat) (hpd : e.publish_date = some pd) (hne : pd ≠ "")
    (hy : extractYear pd = some y) :
    ∃ o', oldestStep acc e = some o' ∧ o' ≤ y := by
  unfold oldestStep
  rw [hpd]
  simp only [hne, if_false, hy]
  rcases acc with _ | o
  · exact ⟨y, rfl, Nat.le_refl y⟩
  · simp only
    split
    · exact ⟨y, rfl, Nat.le_refl y⟩
    · rename_i h
      exact ⟨o, rfl, by omega⟩

theorem oldestStep_cases (acc : Option Nat) (e : EditionEntry) (m : Nat)
    (h : oldestStep acc e = some m) :
    acc = some m ∨
    ∃ pd, e.publish_date = some pd ∧ pd ≠ "" ∧ extractYear pd = some m := by
  rcases hpd : e.publish_date with _ | pd
  · simp only [oldestStep, hpd] at h
    exact Or.inl h
  · by_cases hne : pd = ""
    · simp [oldestStep, hpd, hne] at h
      exact Or.inl h
    · rcases hy : extractYear pd with _ | y
      · simp [oldestStep, hpd, hne, hy] at h
        exact Or.inl h
      · rcases acc with _ | o
        · simp [oldestStep, hpd, hne, hy] at h
          exact Or.inr ⟨pd, rfl, hne, by rw [hy, h]⟩
        · by_cases hlt : y < o
          · simp [oldestStep, hpd, hne, hy, hlt] at h
            exact Or.inr ⟨pd, rfl, hne, by rw [hy, h]⟩
          · simp [oldestStep, hpd, hne, hy, hlt] at h
            exact Or.inl (by rw [h])

theorem foldl_oldest_le (entries : List EditionEntry) :
    ∀ o m, entries.foldl oldestStep (some o) = some m → m ≤ o := by
  induction entries with
  | nil =>
    intro o m h
    simp only [List.foldl_nil, Option.some.injEq] at h
    omega
  | cons e rest ih =>
    intro o m h
    rw [List.foldl_cons] at h
    obtain ⟨o', ho', hle⟩ := oldestStep_some o e
    rw [ho'] at h
    exact Nat.le_trans (ih o' m h) hle

theorem oldestYear_min_aux (entries : List EditionEntry) :
    ∀ acc m, entries.foldl oldestStep acc = some m →
      ∀ e ∈ entries, ∀ pd, e.publish_date = some pd → pd ≠ "" →
        ∀ y, extractYear pd = some y → m ≤ y := by
  induction entries with
  | nil =>
    intro acc m _ e he
    simp at he
  | cons e0 rest ih =>
    intro acc m h e he pd hpd hne y hy
    rw [List.foldl_cons] at h
    rcases List.mem_cons.mp he with rfl | hmem
    · obtain ⟨o', ho', hle⟩ := oldestStep_le_year acc e pd y hpd hne hy
      rw [ho'] at h
      exact Nat.le_trans (foldl_oldest_le rest o' m h) hle
    · exact ih (oldestStep acc e0) m h e hmem pd hpd hne y hy

theorem oldestYear_mem_aux (entries : List EditionEntry) :
    ∀ acc m, entries.foldl oldestStep acc = some m →
      acc = some m ∨
      ∃ e ∈ entries, ∃ pd, e.publish_date = some pd ∧ pd ≠ "" ∧
        extractYear pd = some m := by
  induction entries with
  | nil =>
    intro acc m h
    simp only [List.foldl_nil] at h
    exact Or.inl h
  | cons e0 rest ih =>
    intro acc m h
    rw [List.foldl_cons] at h
    rcases ih (oldestStep acc e0) m h with h1 | ⟨e, he, pd, hpd, hne, hy⟩
    · rcases oldestStep_cases acc e0 m h1 with h2 | ⟨pd, hpd, hne, hy⟩
      · exact Or.inl h2
      · exact Or.inr ⟨e0, List.mem_cons_self _ _, pd, hpd, hne, hy⟩
    · exact Or.inr ⟨e, List.mem_cons.mpr (Or.inr he), pd, hpd, hne, hy⟩

/-- The oldest-year scan returns a year attained by some listed edition and
no greater than every extractable year. -/
theorem oldestYear_spec (entries : List EditionEntry) (m : Nat)
    (h : oldestYear entries = some m) :
    (∃ e ∈ entries, ∃ pd, e.publish_date = some pd ∧ pd ≠ "" ∧
       extractYear pd = some m) ∧
    (∀ e ∈ entries, ∀ pd, e.publish_date = some pd → pd ≠ "" →
       ∀ y, extractYear pd = some y → m ≤ y) := by
  unfold oldestYear at h
  refine ⟨?_, oldestYear_min_aux entries none m h⟩
  rcases oldestYear_mem_aux entries none m h with h1 | h2
  · exact absurd h1 (by simp)
  · exact h2

/-- The default pass leaves every required field truthy. -/
theorem applyDefaults_inv (b : Book) :
    (applyDefaults b).title ≠ "" ∧
    (applyDefaults b).author ≠ "" ∧
    (applyDefaults b).description ≠ "" ∧
    (applyDefaults b).category ≠ "" ∧
    yearFalsy (applyDefaults b).publication_year = false := by
  unfold applyDefaults
  refine ⟨?_, ?_, ?_, ?_, defYear_year _⟩
  · rw [(defYear_keeps _).1, (defCategory_keeps _).1, (defDescription_keeps _).1,
        (defAuthor_keeps _).1]
    exact defTitle_title b
  · rw [(defYear_keeps _).2.1, (defCategory_keeps _).2.1, (defDescription_keeps _).2.1]
    exact defAuthor_author _
  · rw [(defYear_keeps _).2.2.1, (defCategory_keeps _).2.2.1]
    exact defDescription_description _
  · rw [(defYear_keeps _).2.2.2]
    exact defCategory_category _

/-! ### Claims -/

/-- C1: claimed - with external_id present and no work data obtained by any
by-id lookup, resolve returns false, leaves every field unchanged, and
never enters the by-title path.  The code violates this: line 376 is not
guarded by the absence of external_id, so after a failed by-id phase the
by-title search runs (contradicting the method's own docstring and the
comment above that line).  Here every lookup of the record's own id fails,
yet the resolver issues a search, mutates the record and returns true. -/
theorem C1_id_failure_falls_through_to_title :
    bookC1.external_id ≠ "" ∧
    upperContains bookC1.external_id 'M' = false ∧
    netC1.workJson (fmtWorkUrl bookC1.external_id) = none ∧
    netC1.workJson (rawWorkUrl bookC1.external_id) = none ∧
    (fetchBookData netC1 3 bookC1).ok = true ∧
    (fetchBookData netC1 3 bookC1).searchCalls = 1 ∧
    (fetchBookData netC1 3 bookC1).book.author = "Frank Herbert" ∧
    bookC1.author = "" := by decide

/-- C2 counterexample: the claim quantifies over every record, but on a
record without external_id (taking the by-title path) the resolver
overwrites the already-populated, non-sentinel author and year fields. -/
theorem C2_counterexample :
    bookC2.author = "Frank Herbert" ∧
    bookC2.publication_year = some 1965 ∧
    (fetchBookData netC2 2 bookC2).ok = true ∧
    (fetchBookData netC2 2 bookC2).book.author = "X Y" ∧
    (fetchBookData netC2 2 bookC2).book.publication_year = some 1970 := by decide

set_option maxHeartbeats 1000000 in
/-- C2 (amended): for any record - however partially populated - whose
external_id is present and resolves to work data, each field that already
holds a non-empty value different from its sentinel default is individually
unchanged by resolve; consequently a fully-populated such record is a fixed
point and repeated resolution is idempotent.  (The by-title path, taken
when external_id is absent or unresolvable, overwrites fields.) -/
theorem C2_amended_no_overwrite (net : Network) (fuel : Nat) (b : Book)
    (wd : WorkData)
    (hext : b.external_id ≠ "")
    (hwd : (idPhase net b.external_id).2.1 = some wd) :
    (fetchBookData net (fuel + 1) b).ok = true ∧
    (b.title ≠ "" → b.title ≠ "Sin título" →
       (fetchBookData net (fuel + 1) b).book.title = b.title) ∧
    (b.author ≠ "" → b.author ≠ "Autor desconocido" →
       (fetchBookData net (fuel + 1) b).book.author = b.author) ∧
    (b.description ≠ "" → b.description ≠ "Sin descripción disponible" →
       (fetchBookData net (fuel + 1) b).book.description = b.description) ∧
    (b.category ≠ "" → b.category ≠ "General" →
       (fetchBookData net (fuel + 1) b).book.category = b.category) ∧
    (∀ y, b.publication_year = some y → y ≠ 0 → y ≠ 2000 →
       (fetchBookData net (fuel + 1) b).book.publication_year = b.publication_year) ∧
    (b.cover_url ≠ "" →
       (fetchBookData net (fuel + 1) b).book.cover_url = b.cover_url) ∧
    ((b.title ≠ "" ∧ b.title ≠ "Sin título") →
     (b.author ≠ "" ∧ b.author ≠ "Autor desconocido") →
     (b.description ≠ "" ∧ b.description ≠ "Sin descripción disponible") →
     (b.category ≠ "" ∧ b.category ≠ "General") →
     (∃ y, b.publication_year = some y ∧ y ≠ 0 ∧ y ≠ 2000) →
     b.cover_url ≠ "" →
       (fetchBookData net (fuel + 1) b).book = b ∧
       (fetchBookData net (fuel + 1) (fetchBookData net (fuel + 1) b).book).book = b) := by
  have key : fetchBookData net (fuel + 1) b =
      ⟨true, applyWorkData net wd (idPhase net b.external_id).1 b, 0,
       (idPhase net b.external_id).2.2⟩ := by
    simp only [fetchBookData]
    rw [if_pos hext]
    simp only [hwd]
  refine ⟨by rw [key], ?_, ?_, ?_, ?_, ?_, ?_, ?_⟩
  · intro h1 h2
    rw [key]
    exact applyWorkData_title net wd _ b h1 h2
  · intro h1 h2
    rw [key]
    exact applyWorkData_author net wd _ b h1 h2
  · intro h1 h2
    rw [key]
    exact applyWorkData_description net wd _ b h1 h2
  · intro h1 h2
    rw [key]
    exact applyWorkData_category net wd _ b h1 h2
  · intro y hy h0 h2000
    rw [key]
    exact applyWorkData_year net wd _ b y hy h0 h2000
  · intro h
    rw [key]
    exact applyWorkData_cover net wd _ b h
  · intro ht ha hd hc hy hcu
    have h2 : (fetchBookData net (fuel + 1) b).book = b := by
      rw [key]
      exact applyWorkData_skip net wd _ b ht ha hd hc hy hcu
    refine ⟨h2, ?_⟩
    rw [h2]
    exact h2

/-- C2 witness: a partially-populated record (only the author set) keeps
its author, and a fully-populated record is a fixed point. -/
theorem C2_witness :
    (fetchBookData netC2w 1 bookC2p).book.author = bookC2p.author ∧
    (fetchBookData netC2w 1 bookC2w).book = bookC2w :=
  ⟨(C2_amended_no_overwrite netC2w 0 bookC2p wdC2w (by decide)
      (by decide)).2.2.1 (by decide) (by decide),
   ((C2_amended_no_overwrite netC2w 0 bookC2w wdC2w (by decide)
      (by decide)).2.2.2.2.2.2.2
      ⟨by decide, by decide⟩ ⟨by decide, by decide⟩ ⟨by decide, by decide⟩
      ⟨by decide, by decide⟩ ⟨1984, rfl, by decide, by decide⟩ (by decide)).1⟩

/-- C3: after any save the five required fields are truthy (the defaults
pass is unconditional), and a record with every field empty saved against
an unreachable network holds exactly the sentinel defaults, with
external_id and cover_url still empty. -/
theorem C3_save_defaults :
    (∀ net fuel b,
       (saveBook net fuel b).title ≠ "" ∧
       (saveBook net fuel b).author ≠ "" ∧
       (saveBook net fuel b).description ≠ "" ∧
       (saveBook net fuel b).category ≠ "" ∧
       yearFalsy (saveBook net fuel b).publication_year = false) ∧
    saveBook deadNet 1 emptyBook =
      { title := "Sin título", author := "Autor desconocido",
        description := "Sin descripción disponible", category := "General",
        publication_year := some 2000, external_id := "", cover_url := "" } := by
  constructor
  · intro net fuel b
    unfold saveBook
    exact applyDefaults_inv _
  · decide

/-- C4 counterexample: under the claim's premises (no external_id,
non-default title) the resolver is not limited to one search call - when
the search result's key populates external_id but the by-id lookups fail,
the call recurses and searches again with the unchanged title. -/
theorem C4_counterexample :
    bookC4.external_id = "" ∧ bookC4.title ≠ "" ∧ bookC4.title ≠ "Sin título" ∧
    (fetchBookData netC4 3 bookC4).searchCalls = 3 := by decide

/-- C4 (amended): for a record with no external_id and a non-empty,
non-sentinel title whose search returns zero results, resolve performs
exactly one search call, returns false, and leaves every field (including
external_id) unchanged; the exactly-one-call count holds in the
zero-results case (a successful search may recurse and search again). -/
theorem C4_amended_zero_results (net : Network) (fuel : Nat) (b : Book)
    (hext : b.external_id = "")
    (ht1 : b.title ≠ "") (ht2 : b.title ≠ "Sin título")
    (hs : net.searchTitle b.title = some []) :
    fetchBookData net (fuel + 1) b = ⟨false, b, 1, []⟩ := by
  have hts : titleStep net b = TOut.failed := by
    unfold titleStep
    rw [if_pos ⟨ht1, ht2⟩]
    simp only [hs]
    rfl
  simp only [fetchBookData]
  rw [if_neg (by simp [hext])]
  simp only [hts]

/-- C4 witness: a concrete record and a zero-results search. -/
theorem C4_witness :
    fetchBookData netC4w 1 bookC4w = ⟨false, bookC4w, 1, []⟩ :=
  C4_amended_zero_results netC4w 0 bookC4w (by decide) (by decide) (by decide)
    (by decide)

/-- C5: with an edition-classified external_id whose edition fetch fails
but whose direct work lookup (formatted, or raw after a formatted failure)
yields work data, resolve returns true and merges with no edition data. -/
theorem C5_work_only (net : Network) (fuel : Nat) (b : Book) (wd : WorkData)
    (hext : b.external_id ≠ "")
    (hM : upperContains b.external_id 'M' = true)
    (hed : net.editionJson (editionUrl b.external_id) = none)
    (hwd : net.workJson (fmtWorkUrl b.external_id) = some wd ∨
           (net.workJson (fmtWorkUrl b.external_id) = none ∧
            net.workJson (rawWorkUrl b.external_id) = some wd)) :
    (fetchBookData net (fuel + 1) b).ok = true ∧
    (fetchBookData net (fuel + 1) b).book = applyWorkData net wd none b := by
  have hep : editionPhase net b.external_id = (none, none, []) := by
    unfold editionPhase
    rw [hM]
    simp [hed]
  have hip1 : (idPhase net b.external_id).2.1 = some wd := by
    unfold idPhase
    rw [hep]
    rcases hwd with h1 | ⟨h1, h2⟩
    · simp [h1]
    · simp [h1, h2]
  have hip2 : (idPhase net b.external_id).1 = none := by
    unfold idPhase
    rw [hep]
    rcases hwd with h1 | ⟨h1, h2⟩
    · simp [h1]
    · simp [h1, h2]
  have key : fetchBookData net (fuel + 1) b =
      ⟨true, applyWorkData net wd (idPhase net b.external_id).1 b, 0,
       (idPhase net b.external_id).2.2⟩ := by
    simp only [fetchBookData]
    rw [if_pos hext]
    simp only [hip1]
  rw [key, hip2]
  exact ⟨rfl, rfl⟩

/-- C5 witness: edition id `OL7M`, failing edition fetch, formatted work
lookup succeeding. -/
theorem C5_witness :
    (fetchBookData netC5 1 bookC5).ok = true ∧
    (fetchBookData netC5 1 bookC5).book = applyWorkData netC5 wdC5 none bookC5 :=
  C5_work_only netC5 0 bookC5 wdC5 (by decide) (by decide) (by decide)
    (Or.inl (by decide))

/-- C6: with an external_id containing neither `M` nor `W` and both direct
lookups failing, the resolver requests the formatted URL and then the raw
URL, in that order, before treating work data as unobtained (here the
title is empty, so the call then fails with the record unchanged). -/
theorem C6_lookup_and_retry (net : Network) (fuel : Nat) (b : Book)
    (hext : b.external_id ≠ "")
    (hM : upperContains b.external_id 'M' = false)
    (hW : upperContains b.external_id 'W' = false)
    (h1 : net.workJson (fmtWorkUrl b.external_id) = none)
    (h2 : net.workJson (rawWorkUrl b.external_id) = none)
    (htitle : b.title = "") :
    fetchBookData net (fuel + 1) b =
      ⟨false, b, 0, [fmtWorkUrl b.external_id, rawWorkUrl b.external_id]⟩ := by
  have hep : editionPhase net b.external_id = (none, none, []) := by
    unfold editionPhase
    rw [hM]
    simp
  have hip : idPhase net b.external_id =
      (none, none, [fmtWorkUrl b.external_id, rawWorkUrl b.external_id]) := by
    unfold idPhase
    rw [hep]
    simp [h1, h2]
  have hts : titleStep net b = TOut.noSearch := by
    unfold titleStep
    rw [if_neg]
    rintro ⟨hx, -⟩
    exact hx htitle
  simp only [fetchBookData]
  rw [if_pos hext]
  simp only [hip, hts]

/-- C6 witness: the id `12345` with every request failing. -/
theorem C6_witness :
    fetchBookData netC6 1 bookC6 =
      ⟨false, bookC6, 0, [fmtWorkUrl "12345", rawWorkUrl "12345"]⟩ :=
  C6_lookup_and_retry netC6 0 bookC6 (by decide) (by decide) (by decide)
    (by decide) (by decide) (by decide)

/-- C7: cover precedence on an empty cover_url.  (1) The listing-derived
cover belongs to a candidate attaining the maximal extracted year (missing
years count as 0, first among ties - the head of the stable descending
sort); (2) a positive cover id on the fetched edition wins outright;
(3) with no edition cover, a successful listing's newest-year cover is
taken; (4) with no listing, the work's first positive cover is taken;
(5) in the concrete scenario (edition cover `111`, listing covers `222`
newer / `333` older) the full resolver selects `111`. -/
theorem C7_cover_precedence :
    (∀ entries c, newestCoverId entries = some c →
       ∃ y, (y, c) ∈ coverCandidates entries ∧
         ∀ p ∈ coverCandidates entries, p.1 ≤ y) ∧
    (∀ net wd e b c, b.cover_url = "" → firstValidCover e.covers = some c →
       (mergeCover net wd (some e) b).cover_url = coverUrlOf c) ∧
    (∀ net wd b entries c, b.cover_url = "" →
       net.editionsJson (editionsUrlFixed wd) 50 = some entries →
       newestCoverId entries = some c →
       (mergeCover net wd none b).cover_url = coverUrlOf c) ∧
    (∀ net wd b c, b.cover_url = "" →
       net.editionsJson (editionsUrlFixed wd) 50 = none →
       firstValidCover wd.covers = some c →
       (mergeCover net wd none b).cover_url = coverUrlOf c) ∧
    (fetchBookData netC7 2 bookC7).book.cover_url = coverUrlOf 111 := by
  refine ⟨?_, ?_, ?_, ?_, by decide⟩
  · intro entries c h
    unfold newestCoverId at h
    rcases hc : coverCandidates entries with _ | ⟨x, xs⟩
    · rw [hc] at h
      cases h
    · rw [hc] at h
      injection h with h2
      refine ⟨(pickNewest x xs).1, ?_, ?_⟩
      · rw [← h2]
        simpa using pickNewest_mem x xs
      · intro p hp
        exact pickNewest_max x xs p hp
  · intro net wd e b c hb hcov
    unfold mergeCover
    rw [if_pos hb]
    simp [hcov]
  · intro net wd b entries c hb hl hn
    unfold mergeCover
    rw [if_pos hb]
    simp [hl, hn]
  · intro net wd b c hb hl hw
    unfold mergeCover
    rw [if_pos hb]
    simp [hl, hw]

/-- C7 witness: the edition-level cover wins in the concrete scenario. -/
theorem C7_witness :
    (mergeCover netC7 wdC7 (some edC7) bookC7).cover_url = coverUrlOf 111 :=
  C7_cover_precedence.2.1 netC7 wdC7 edC7 bookC7 111 (by decide) (by decide)

/-- C8 counterexample: the claim says the oldest-edition fallback runs only
when no year is obtained from the edition, but the code re-checks the
guard, so an edition year equal to the sentinel 2000 is overwritten by the
listing's oldest year (1999 here). -/
theorem C8_counterexample :
    netC8.editionJson (editionUrl bookC8.external_id) = some edC8 ∧
    edC8.publish_date = some "2000" ∧
    extractYear "2000" = some 2000 ∧
    oldestYear [entC8] = some 1999 ∧
    (fetchBookData netC8 2 bookC8).book.publication_year = some 1999 := by decide

/-- C8 (amended): merging into an empty-or-sentinel publication_year takes
the first 4-digit run of the fetched edition's publish_date; the fallback
to the minimum listed-edition year runs exactly when no year was obtained
or the obtained year is 0 or the sentinel 2000 (the guard is re-checked).
(1) an edition year other than 0/2000 stands, whatever the listing says;
(2) with no edition the listing's oldest nonzero year is applied;
(3) an edition year of 0 or 2000 is overridden by the listing's oldest
nonzero year; (4) the oldest-year scan returns an attained lower bound of
every extractable listed year. -/
theorem C8_amended_year_precedence :
    (∀ net wd e b pd y, yearGuard b = true → e.publish_date = some pd →
       pd ≠ "" → extractYear pd = some y → y ≠ 0 → y ≠ 2000 →
       (mergeYear net wd (some e) b).publication_year = some y) ∧
    (∀ net wd b entries m, yearGuard b = true →
       net.editionsJson (editionsUrlFixed wd) 50 = some entries →
       oldestYear entries = some m → m ≠ 0 →
       (mergeYear net wd none b).publication_year = some m) ∧
    (∀ net wd e b pd y entries m, yearGuard b = true →
       e.publish_date = some pd → pd ≠ "" → extractYear pd = some y →
       (y = 0 ∨ y = 2000) →
       net.editionsJson (editionsUrlFixed wd) 50 = some entries →
       oldestYear entries = some m → m ≠ 0 →
       (mergeYear net wd (some e) b).publication_year = some m) ∧
    (∀ entries m, oldestYear entries = some m →
       (∃ e ∈ entries, ∃ pd, e.publish_date = some pd ∧ pd ≠ "" ∧
          extractYear pd = some m) ∧
       (∀ e ∈ entries, ∀ pd, e.publish_date = some pd → pd ≠ "" →
          ∀ y, extractYear pd = some y → m ≤ y)) := by
  refine ⟨?_, ?_, ?_, oldestYear_spec⟩
  · intro net wd e b pd y hg hpd hne hy h0 h2000
    have hng : yearGuard { b with publication_year := some y } = false :=
      yearGuard_false _ y rfl h0 h2000
    unfold mergeYear
    rw [if_pos hg]
    simp only [hpd, hne, if_neg, hy]
    simp [hng]
  · intro net wd b entries m hg hl hm hm0
    unfold mergeYear
    rw [if_pos hg]
    simp [hg, hl, hm, hm0]
  · intro net wd e b pd y entries m hg hpd hne hy hy0 hl hm hm0
    have hng : yearGuard { b with publication_year := some y } = true := by
      rcases hy0 with rfl | rfl <;> simp [yearGuard, yearFalsy]
    unfold mergeYear
    rw [if_pos hg]
    simp only [hpd, hne, if_neg, hy]
    simp [hng, hl, hm, hm0]

/-- C8 witness: an edition dated 1984 fills an empty year with no listing
needed. -/
theorem C8_witness :
    (mergeYear netC8w wdC8w (some edC8w) bookC8w).publication_year = some 1984 :=
  C8_amended_year_precedence.1 netC8w wdC8w edC8w bookC8w "1984" 1984
    (by decide) (by decide) (by decide) (by decide) (by decide) (by decide)

/-- C9: `get_cover_url` returns the manually-set cover without any request
whenever it is non-empty; otherwise it issues exactly one title+author
search and any URL it returns is built from the top match's truthy cover
id.  The embedding returns only the URL and a request count: the operation
performs no field write and no persist by construction. -/
theorem C9_cover_only_lookup (net : Network) (b : Book) :
    (b.cover_url ≠ "" → getCoverUrl net b = (some b.cover_url, 0)) ∧
    (b.cover_url = "" →
       (getCoverUrl net b).2 = 1 ∧
       ∀ u, (getCoverUrl net b).1 = some u →
         ∃ docs doc c, net.searchTitleAuthor b.title b.author = some docs ∧
           docs.head? = some doc ∧ doc.cover_i = some c ∧ c ≠ 0 ∧
           u = coverUrlOf c) := by
  constructor
  · intro h
    unfold getCoverUrl
    rw [if_pos h]
  · intro h
    unfold getCoverUrl
    rw [if_neg (by simp [h])]
    rcases hs : net.searchTitleAuthor b.title b.author with _ | docs
    · simp
    · rcases hd : docs.head? with _ | doc
      · simp [hd]
      · rcases hc : doc.cover_i with _ | c
        · simp [hd, hc]
        · by_cases h0 : c = 0
          · subst h0
            simp [hd, hc]
          · simp [hd, hc, h0]

/-- C9 witness: a record with a manual cover returns it with no request. -/
theorem C9_witness :
    getCoverUrl netC9 bookC9 = (some "http://example.com/manual.jpg", 0) :=
  (C9_cover_only_lookup netC9 bookC9).1 (by decide)

/-- C10: the favorites table never holds two rows for the same
(user, book) pair: toggling preserves row uniqueness (so every row count
stays at most one), and toggling the same pair again still leaves at most
one row for it - a second mark can never create a duplicate. -/
theorem C10_favorite_unique (favs : List Fav) (u bk : Nat) (h : favs.Nodup) :
    (toggleFavorite favs u bk).1.Nodup ∧
    (∀ p : Fav, (toggleFavorite favs u bk).1.count p ≤ 1) ∧
    (toggleFavorite (toggleFavorite favs u bk).1 u bk).1.count ⟨u, bk⟩ ≤ 1 := by
  have main : ∀ l : List Fav, l.Nodup → (toggleFavorite l u bk).1.Nodup := by
    intro l hl
    unfold toggleFavorite
    split
    · exact hl.erase _
    · rename_i hmem
      refine List.nodup_append.mpr ⟨hl, List.nodup_singleton _, ?_⟩
      intro a ha hb
      exact hmem ((List.mem_singleton.mp hb) ▸ ha)
  refine ⟨main favs h, fun p => List.nodup_iff_count_le_one.mp (main favs h) p,
    List.nodup_iff_count_le_one.mp (main _ (main favs h)) _⟩

/-- C10 witness: a one-row table toggled twice. -/
theorem C10_witness :
    (toggleFavorite [(⟨1, 2⟩ : Fav)] 1 2).1.Nodup ∧
    (∀ p : Fav, (toggleFavorite [(⟨1, 2⟩ : Fav)] 1 2).1.count p ≤ 1) ∧
    (toggleFavorite (toggleFavorite [(⟨1, 2⟩ : Fav)] 1 2).1 1 2).1.count ⟨1, 2⟩ ≤ 1 :=
  C10_favorite_unique [⟨1, 2⟩] 1 2 (by decide)
